import Mathlib

/-!
Verification of the Flume Water Prometheus exporter (src/flume_exporter.py).

The Python program is shallowly embedded:
- Python / JSON dynamic values are modelled by the inductive `Json`
  (Python `None` is `Json.null`; numbers are modelled as rationals).
- Wall-clock times (`datetime.now()` and token expiry instants) are integers
  counting seconds (the claims never exercise sub-second precision);
  `timedelta` subtraction is integer subtraction, and the `.seconds` attribute
  of a timedelta is modelled by `tdSeconds`.
- The network is an oracle (`Upstream`): each HTTP request site receives the
  outcome of its request (a raised connection error, or a status code together
  with an optional parsed JSON body, `none` meaning `.json()` raised).
- Exceptions are modelled by the corresponding `except` handler's result: every
  function is total and returns exactly what the Python code returns after its
  exception handling; aborted loops return the state reached so far.
-/

/-- A dynamic (Python / JSON) value.  Python `None` is `Json.null`.  Numbers are
rationals (the program does no arithmetic on upstream numbers, it only stores
them). -/
inductive Json where
  | null : Json
  | bool (b : Bool) : Json
  | num (q : Rat) : Json
  | str (s : String) : Json
  | arr (xs : List Json) : Json
  | obj (fields : List (String × Json)) : Json

/-- Python `v is None` / `v is not None`. -/
def Json.isNull : Json → Bool
  | .null => true
  | _ => false

/-- Python truthiness of a dynamic value (`bool(v)`). -/
def Json.truthy : Json → Bool
  | .null => false
  | .bool b => b
  | .num q => !(q = 0)
  | .str s => !s.isEmpty
  | .arr xs => !xs.isEmpty
  | .obj fs => !fs.isEmpty

def Json.isObj : Json → Bool
  | .obj _ => true
  | _ => false

def Json.isNum : Json → Bool
  | .num _ => true
  | _ => false

/-- The fields of an object value (empty for non-objects). -/
def Json.fields : Json → List (String × Json)
  | .obj fs => fs
  | _ => []

/-- First-match association lookup (Python dicts have unique keys, so this is
exact). -/
def jsonLookup : List (String × Json) → String → Option Json
  | [], _ => none
  | (k, v) :: rest, key => if k = key then some v else jsonLookup rest key

/-- Python `d.get(key, default)` on a dict. -/
def jsonGetD (fs : List (String × Json)) (key : String) (dflt : Json) : Json :=
  (jsonLookup fs key).getD dflt

/-- A single-quote character, used by the Python `repr` of strings. -/
def squote : String := String.mk [Char.ofNat 39]

mutual

/-- Python `repr` of a dynamic value (scalars exact; the string case omits
escaping, which no claim exercises). -/
def pyRepr : Json → String
  | .null => "None"
  | .bool b => if b then "True" else "False"
  | .num q => if q.den = 1 then toString q.num else toString q
  | .str s => squote ++ s ++ squote
  | .arr xs => "[" ++ pyReprList xs ++ "]"
  | .obj fs => "\x7b" ++ pyReprFields fs ++ "\x7d"

def pyReprList : List Json → String
  | [] => ""
  | [x] => pyRepr x
  | x :: y :: rest => pyRepr x ++ ", " ++ pyReprList (y :: rest)

def pyReprFields : List (String × Json) → String
  | [] => ""
  | [(k, v)] => squote ++ k ++ squote ++ ": " ++ pyRepr v
  | (k, v) :: p :: rest =>
    squote ++ k ++ squote ++ ": " ++ pyRepr v ++ ", " ++ pyReprFields (p :: rest)

end

/-- Python `str` of a dynamic value (as used by f-string interpolation): like
`repr` except a top-level string is rendered without quotes. -/
def pyStr : Json → String
  | .str s => s
  | v => pyRepr v

/-- Helpers for Python `float(value)` as performed by `Gauge.set`:
parse the digits of a decimal literal. -/
def takeDigits : List Char → List Char × List Char
  | [] => ([], [])
  | c :: rest =>
    if c.isDigit then
      let p := takeDigits rest
      (c :: p.1, p.2)
    else ([], c :: rest)

def digitsVal (ds : List Char) : Nat :=
  ds.foldl (fun a c => a * 10 + (c.toNat - 48)) 0

/-- Parse a decimal float literal (sign, digits, optional fraction; the
exponent and inf/nan forms accepted by Python are not modelled, no claim
exercises them). -/
def parseFloatStr (s : String) : Option Rat :=
  let cs := s.toList.filter (fun c => !(c = ' '))
  let p0 : Bool × List Char :=
    match cs with
    | '-' :: rest => (true, rest)
    | _ => (false, cs)
  let ip := takeDigits p0.2
  if ip.1.isEmpty then none
  else
    let intPart : Rat := ((digitsVal ip.1 : Int) : Rat)
    match ip.2 with
    | '.' :: rest =>
      let fp := takeDigits rest
      if fp.1.isEmpty then none
      else
        let fracPart : Rat := ((digitsVal fp.1 : Int) : Rat) / ((10 : Rat) ^ fp.1.length)
        if fp.2.isEmpty then
          some (if p0.1 then -(intPart + fracPart) else intPart + fracPart)
        else none
    | [] => some (if p0.1 then -intPart else intPart)
    | _ => none

/-- Python `float(value)`: numbers and bools convert, numeric strings parse,
everything else raises (`none`). -/
def pyFloat : Json → Option Rat
  | .num q => some q
  | .bool b => some (if b then 1 else 0)
  | .str s => parseFloatStr s
  | _ => none

/-- Python `timedelta(seconds=value)` accepts numbers and bools; anything else
raises (`none`).  The value is floored onto the integer-second time axis of
this model (no claim exercises fractional expiry). -/
def pyNum : Json → Option Int
  | .num q => some (Rat.floor q)
  | .bool b => some (if b then 1 else 0)
  | _ => none

/-- The `.seconds` attribute of a Python timedelta of `d` (integer) seconds:
timedeltas normalise to `(days, seconds, microseconds)` with
`0 ≤ seconds < 86400`, so `.seconds` is the total seconds reduced modulo one
day (`Int.emod` matches Python's floor-mod).  It is NOT the total duration
(`total_seconds()`). -/
def tdSeconds (d : Int) : Int := d % 86400

/-- base64 alphabet value of a character, URL-safe variant (`-`, `_`). -/
def b64Val (c : Char) : Option Nat :=
  if 'A' ≤ c ∧ c ≤ 'Z' then some (c.toNat - 65)
  else if 'a' ≤ c ∧ c ≤ 'z' then some (c.toNat - 71)
  else if '0' ≤ c ∧ c ≤ '9' then some (c.toNat + 4)
  else if c = '-' then some 62
  else if c = '_' then some 63
  else none

/-- Decode base64 input four characters at a time into bytes, handling the
trailing padding block; `none` models a raised `binascii.Error`. -/
def b64Quads : List Char → Option (List Nat)
  | [] => some []
  | a :: b :: c :: d :: rest =>
    match b64Val a, b64Val b with
    | some va, some vb =>
      if c = '=' then
        if d = '=' ∧ rest = [] then some [va * 4 + vb / 16]
        else none
      else
        match b64Val c with
        | some vc =>
          if d = '=' then
            if rest = [] then some [va * 4 + vb / 16, (vb % 16) * 16 + vc / 4]
            else none
          else
            match b64Val d with
            | some vd =>
              (b64Quads rest).map (fun bs =>
                (va * 4 + vb / 16) :: ((vb % 16) * 16 + vc / 4) :: ((vc % 4) * 64 + vd) :: bs)
            | none => none
        | none => none
    | _, _ => none
  | _ => none

/-- Python `bytes.decode()` (UTF-8), modelled for ASCII payloads (all the JWT payloads
the claims exercise are ASCII). -/
def asciiDecodeChars : List Nat → Option (List Char)
  | [] => some []
  | b :: rest =>
    if b < 128 then (asciiDecodeChars rest).map (fun cs => Char.ofNat b :: cs)
    else none

/-- Python `str.split` with a single-character separator, structurally over
the character list. -/
def splitOnChar (c : Char) : List Char → List (List Char)
  | [] => [[]]
  | x :: rest =>
    if x = c then [] :: splitOnChar c rest
    else
      match splitOnChar c rest with
      | [] => [[x]]
      | g :: gs => (x :: g) :: gs

/-- Python `tok.split('.')`. -/
def pySplitDot (s : String) : List String :=
  (splitOnChar '.' s.toList).map String.mk

def isPrefixList : List Char → List Char → Bool
  | [], _ => true
  | _ :: _, [] => false
  | a :: as, b :: bs => a = b && isPrefixList as bs

/-- Substring membership, as used by Python's `in` on strings. -/
def hasSubstr (needle : List Char) : List Char → Bool
  | [] => isPrefixList needle []
  | c :: rest => isPrefixList needle (c :: rest) || hasSubstr needle rest

/-- Skip JSON whitespace. -/
def skipWs : List Char → List Char
  | [] => []
  | c :: rest =>
    if c = ' ' ∨ c = Char.ofNat 9 ∨ c = Char.ofNat 10 ∨ c = Char.ofNat 13 then skipWs rest
    else c :: rest

/-- Parse the characters of a JSON string literal after the opening quote;
returns the content and the remaining input.  Escapes cover the common
single-character forms (`\u` escapes are not modelled, no claim uses them). -/
def parseStrChars : Nat → List Char → Option (List Char × List Char)
  | 0, _ => none
  | _ + 1, [] => none
  | fuel + 1, c :: rest =>
    if c = Char.ofNat 34 then some ([], rest)
    else if c = Char.ofNat 92 then
      match rest with
      | [] => none
      | e :: rest2 =>
        let ec : Option Char :=
          if e = 'n' then some (Char.ofNat 10)
          else if e = 't' then some (Char.ofNat 9)
          else if e = 'r' then some (Char.ofNat 13)
          else if e = Char.ofNat 34 then some (Char.ofNat 34)
          else if e = Char.ofNat 92 then some (Char.ofNat 92)
          else if e = '/' then some '/'
          else none
        ec.bind (fun ch => (parseStrChars fuel rest2).map (fun p => (ch :: p.1, p.2)))
    else (parseStrChars fuel rest).map (fun p => (c :: p.1, p.2))

/-- Parse a JSON number (integer or decimal fraction; exponents are not
modelled, no claim uses them). -/
def parseJsonNum (cs : List Char) : Option (Rat × List Char) :=
  let p0 : Bool × List Char :=
    match cs with
    | '-' :: rest => (true, rest)
    | _ => (false, cs)
  let ip := takeDigits p0.2
  if ip.1.isEmpty then none
  else
    let intPart : Rat := ((digitsVal ip.1 : Int) : Rat)
    match ip.2 with
    | '.' :: rest =>
      let fp := takeDigits rest
      if fp.1.isEmpty then none
      else
        let fracPart : Rat := ((digitsVal fp.1 : Int) : Rat) / ((10 : Rat) ^ fp.1.length)
        some ((if p0.1 then -(intPart + fracPart) else intPart + fracPart), fp.2)
    | _ => some ((if p0.1 then -intPart else intPart), ip.2)

mutual

/-- Recursive-descent JSON value parser (models `json.loads`), fuelled by the
input length. -/
def parseJsonVal : Nat → List Char → Option (Json × List Char)
  | 0, _ => none
  | fuel + 1, cs =>
    match skipWs cs with
    | [] => none
    | c :: rest =>
      if c = Char.ofNat 34 then
        (parseStrChars (rest.length + 1) rest).map (fun p => (Json.str (String.mk p.1), p.2))
      else if c = Char.ofNat 123 then
        match skipWs rest with
        | [] => none
        | c2 :: rest2 =>
          if c2 = Char.ofNat 125 then some (Json.obj [], rest2)
          else (parseJsonMembers fuel (c2 :: rest2)).map (fun p => (Json.obj p.1, p.2))
      else if c = '[' then
        match skipWs rest with
        | [] => none
        | c2 :: rest2 =>
          if c2 = ']' then some (Json.arr [], rest2)
          else (parseJsonItems fuel (c2 :: rest2)).map (fun p => (Json.arr p.1, p.2))
      else if c = 't' then
        match rest with
        | 'r' :: 'u' :: 'e' :: r => some (Json.bool true, r)
        | _ => none
      else if c = 'f' then
        match rest with
        | 'a' :: 'l' :: 's' :: 'e' :: r => some (Json.bool false, r)
        | _ => none
      else if c = 'n' then
        match rest with
        | 'u' :: 'l' :: 'l' :: r => some (Json.null, r)
        | _ => none
      else (parseJsonNum (c :: rest)).map (fun p => (Json.num p.1, p.2))

/-- Parse the members of a (non-empty) JSON object, up to and including the
closing brace. -/
def parseJsonMembers : Nat → List Char → Option (List (String × Json) × List Char)
  | 0, _ => none
  | fuel + 1, cs =>
    match skipWs cs with
    | [] => none
    | c :: rest =>
      if c = Char.ofNat 34 then
        match parseStrChars (rest.length + 1) rest with
        | none => none
        | some (key, rest2) =>
          match skipWs rest2 with
          | ':' :: rest3 =>
            match parseJsonVal fuel rest3 with
            | none => none
            | some (v, rest4) =>
              match skipWs rest4 with
              | ',' :: rest5 =>
                (parseJsonMembers fuel rest5).map
                  (fun p => ((String.mk key, v) :: p.1, p.2))
              | c6 :: rest6 =>
                if c6 = Char.ofNat 125 then some ([(String.mk key, v)], rest6) else none
              | [] => none
          | _ => none
      else none

/-- Parse the items of a (non-empty) JSON array, up to and including the
closing bracket. -/
def parseJsonItems : Nat → List Char → Option (List Json × List Char)
  | 0, _ => none
  | fuel + 1, cs =>
    match parseJsonVal fuel cs with
    | none => none
    | some (v, rest) =>
      match skipWs rest with
      | ',' :: rest2 => (parseJsonItems fuel rest2).map (fun p => (v :: p.1, p.2))
      | ']' :: rest2 => some ([v], rest2)
      | _ => none

end

/-- Python `json.loads`: parse one value, require only whitespace after it. -/
def jsonLoads (s : String) : Option Json :=
  match parseJsonVal (s.length + 1) s.toList with
  | some (v, rest) => if (skipWs rest).isEmpty then some v else none
  | none => none

/-- Mutable state of a `FlumeAPI` instance: the three attributes assigned by
`__init__` and `authenticate`.  `access_token` holds a dynamic value
(`Json.null` models Python `None`); `token_expires_at` is an optional instant;
`user_id` is `None` or the string produced by `str(...)`. -/
structure ApiState where
  access_token : Json
  token_expires_at : Option Int
  user_id : Option String

/-- Outcome of one HTTP request: a raised connection error, or a response with
a status code and the result of `.json()` (`none` when `.json()` raises). -/
inductive HttpOutcome where
  | raise : HttpOutcome
  | response (status : Nat) (body : Option Json) : HttpOutcome

/-- The upstream API, as an oracle: the outcome each request site observes.
The consumption and flow-rate outcomes are keyed by the device-id string
interpolated into the request URL. -/
structure Upstream where
  authResp : HttpOutcome
  devicesResp : HttpOutcome
  consumptionResp : String → HttpOutcome
  flowResp : String → HttpOutcome

def BASE_URL : String := "https://api.flumewater.com"

/-- The check `requests.Response.raise_for_status` raises exactly for 4xx/5xx codes. -/
def statusRaises (code : Nat) : Bool := 400 ≤ code ∧ code < 600

/-- The inner `try` of `authenticate` that extracts `user_id` from the JWT
access token: `access_token.split('.')[1]`, re-pad, `urlsafe_b64decode`,
`.decode()`, `json.loads`, then
`str(user_info.get('user_id') or user_info.get('user', ''))`.
`none` means the inner handler ran (`user_id` is set to `None`). -/
def decodeJwtUserId : Json → Option String
  | .str tok =>
    match (pySplitDot tok).get? 1 with
    | none => none
    | some payload =>
      let padded := payload ++ String.mk (List.replicate ((4 - payload.length % 4) % 4) '=')
      match b64Quads padded.toList with
      | none => none
      | some bytes =>
        match asciiDecodeChars bytes with
        | none => none
        | some chars =>
          match jsonLoads (String.mk chars) with
          | some (.obj fs) =>
            let a := (jsonLookup fs "user_id").getD Json.null
            let b := (jsonLookup fs "user").getD (Json.str "")
            some (pyStr (if a.truthy then a else b))
          | _ => none
  | _ => none

/-- The token-envelope branch of `authenticate` once `token_data['data'][0]`
has been selected: assign `access_token`, compute `expires_in` (default 3600)
and `token_expires_at`, then run the JWT-decoding inner `try`.  State writes
happen in source order, so a failure after an assignment keeps that
assignment (the outer handler only logs and returns `False`). -/
def authSetToken (now : Int) (st : ApiState) (tokenInfo : Json) : Bool × ApiState :=
  match tokenInfo with
  | .obj fs =>
    match jsonLookup fs "access_token" with
    | none => (false, st)
    | some tok =>
      let st1 : ApiState := { st with access_token := tok }
      match pyNum (jsonGetD fs "expires_in" (Json.num 3600)) with
      | none => (false, st1)
      | some n =>
        let st2 : ApiState := { st1 with token_expires_at := some (now + n) }
        match decodeJwtUserId tok with
        | some uid => (true, { st2 with user_id := some uid })
        | none => (true, { st2 with user_id := none })
  | _ => (false, st)

/-- Model of `FlumeAPI.authenticate`.  Returns the boolean result together with the
state after all attribute writes (including partial writes on failing paths).
The branch on the token envelope follows
`'data' in token_data and isinstance(token_data['data'], list) and token_data['data']`:
for a dict this checks the key; for a list or string, `in` is a membership or
substring test whose `True` outcome then raises on `token_data['data']`
(caught, state unchanged) and whose `False` outcome reaches the `else` branch
(which sets `user_id = None`); for other types `in` itself raises. -/
def FlumeAPI.authenticate (now : Int) (u : Upstream) (st : ApiState) : Bool × ApiState :=
  match u.authResp with
  | .raise => (false, st)
  | .response code body =>
    if statusRaises code then (false, st)
    else
      match body with
      | none => (false, st)
      | some tokenData =>
        match tokenData with
        | .obj fs =>
          match jsonLookup fs "data" with
          | some (.arr (tokenInfo :: _)) => authSetToken now st tokenInfo
          | _ => (false, { st with user_id := none })
        | .arr xs =>
          if xs.any (fun x => match x with | .str s => s = "data" | _ => false) then (false, st)
          else (false, { st with user_id := none })
        | .str s =>
          if hasSubstr "data".toList s.toList then (false, st)
          else (false, { st with user_id := none })
        | _ => (false, st)

/-- The staleness test of `_get_headers`:
`not self.access_token or (self.token_expires_at and datetime.now() >= self.token_expires_at)`
(a `None` expiry short-circuits to falsy). -/
def tokenInvalid (now : Int) (st : ApiState) : Bool :=
  !st.access_token.truthy ||
    (match st.token_expires_at with
     | some t => decide (t ≤ now)
     | none => false)

/-- Result of `FlumeAPI._get_headers`: `ok = false` models the raised
`Exception("Failed to authenticate")`; `authCalls` counts the authentication
requests issued by this call. -/
structure HeadersResult where
  ok : Bool
  state : ApiState
  authCalls : Nat

/-- Model of `FlumeAPI._get_headers`: reauthenticate when the token is missing or
expired, then hand out bearer headers built from the (possibly new)
`access_token`. -/
def FlumeAPI.get_headers (now : Int) (u : Upstream) (st : ApiState) : HeadersResult :=
  if tokenInvalid now st then
    match FlumeAPI.authenticate now u st with
    | (true, st2) => { ok := true, state := st2, authCalls := 1 }
    | (false, st2) => { ok := false, state := st2, authCalls := 1 }
  else { ok := true, state := st, authCalls := 0 }

/-- Result of `FlumeAPI.get_devices`: the returned value (`data.get('data', [])`,
or `[]` after any caught exception), the state after the call, and the URL of
the HTTP request actually issued (`none` when no request was made). -/
structure DevicesCall where
  result : Json
  state : ApiState
  url : Option String

/-- Truthiness of the `user_id` attribute (`not self.user_id`). -/
def userTruthy : Option String → Bool
  | none => false
  | some s => !s.isEmpty

/-- f-string interpolation of the `user_id` attribute. -/
def userIdStr : Option String → String
  | none => "None"
  | some s => s

/-- Model of `FlumeAPI.get_devices`.  The URL is interpolated from `self.user_id`
before `_get_headers()` is evaluated (Python evaluates the positional
argument first). -/
def FlumeAPI.get_devices (now : Int) (u : Upstream) (st : ApiState) : DevicesCall :=
  if !userTruthy st.user_id then { result := .arr [], state := st, url := none }
  else
    let url := BASE_URL ++ "/users/" ++ userIdStr st.user_id ++ "/devices"
    let h := FlumeAPI.get_headers now u st
    if !h.ok then { result := .arr [], state := h.state, url := none }
    else
      match u.devicesResp with
      | .raise => { result := .arr [], state := h.state, url := some url }
      | .response code body =>
        if statusRaises code then { result := .arr [], state := h.state, url := some url }
        else
          match body with
          | none => { result := .arr [], state := h.state, url := some url }
          | some data =>
            match data with
            | .obj fs => { result := (jsonLookup fs "data").getD (.arr []),
                           state := h.state, url := some url }
            | _ => { result := .arr [], state := h.state, url := some url }

/-- Extraction step of `get_consumption_data`: requires `data['data']` to be a
non-empty list whose head answers `.get('usage', [])`; every other shape (or a
raised lookup) yields `[]`. -/
def consumptionExtract : Json → Json
  | .obj fs =>
    match jsonLookup fs "data" with
    | some (.arr (first :: _)) =>
      match first with
      | .obj gs => (jsonLookup gs "usage").getD (.arr [])
      | _ => .arr []
    | _ => .arr []
  | _ => .arr []

/-- Model of `FlumeAPI.get_consumption_data` for one device (the query body's date
strings do not influence the oracle, which is keyed by the device id).  The
caller discards the value; the state component records reauthentication
effects. -/
def FlumeAPI.get_consumption_data (now : Int) (u : Upstream) (deviceId : String)
    (st : ApiState) : Json × ApiState :=
  let h := FlumeAPI.get_headers now u st
  if !h.ok then (.arr [], h.state)
  else
    match u.consumptionResp deviceId with
    | .raise => (.arr [], h.state)
    | .response code body =>
      if statusRaises code then (.arr [], h.state)
      else
        match body with
        | none => (.arr [], h.state)
        | some data => (consumptionExtract data, h.state)

/-- Extraction step of `get_current_flow_rate`: `data['data'][0].get('gpm')`
when the envelope has the expected shape, else the fall-through `return None`
(or the caught exception), both `Json.null`. -/
def flowExtract : Json → Json
  | .obj fs =>
    match jsonLookup fs "data" with
    | some (.arr (first :: _)) =>
      match first with
      | .obj gs => (jsonLookup gs "gpm").getD .null
      | _ => .null
    | _ => .null
  | _ => .null

/-- Model of `FlumeAPI.get_current_flow_rate` for one device; `Json.null` is the
Python `None` result. -/
def FlumeAPI.get_current_flow_rate (now : Int) (u : Upstream) (deviceId : String)
    (st : ApiState) : Json × ApiState :=
  let h := FlumeAPI.get_headers now u st
  if !h.ok then (.null, h.state)
  else
    match u.flowResp deviceId with
    | .raise => (.null, h.state)
    | .response code body =>
      if statusRaises code then (.null, h.state)
      else
        match body with
        | none => (.null, h.state)
        | some data => (flowExtract data, h.state)

/-- The `flume_device` Info series: label tuple
`(device_id, device_name, location)` mapped to the info value dict. -/
def InfoReg : Type := String × String × String → Option (List (String × Json))

/-- The `flume_water_flow_rate` Gauge: label tuple `(device_id, device_name)`
mapped to the current value (`Gauge.set` stores `float(value)`). -/
def FlowReg : Type := String × String → Option Rat

/-- Point update of a label-keyed metric registry (latest write wins). -/
def regWrite {α β : Type} [DecidableEq α] (r : α → Option β) (k : α) (v : β) :
    α → Option β :=
  fun k2 => if k2 = k then some v else r k2

/-- State of a `FlumeExporter`: the API client state, the device cache (a
dynamic value: the code stores whatever `get_devices` returned), the cache
timestamp, and the two metric families. -/
structure ExporterState where
  api : ApiState
  devices_cache : Json
  last_devices_update : Option Int
  info_reg : InfoReg
  flow_reg : FlowReg

/-- The constant `self.devices_cache_ttl = 3600  # 1 hour`. -/
def devices_cache_ttl : Int := 3600

/-- The staleness test of `update_devices_cache`:
`self.last_devices_update is None or (current_time - self.last_devices_update).seconds > self.devices_cache_ttl`.
Note the use of `.seconds` (the sub-day component), not `total_seconds()`. -/
def cacheStale (now : Int) (st : ExporterState) : Bool :=
  match st.last_devices_update with
  | none => true
  | some t => decide (tdSeconds (now - t) > devices_cache_ttl)

/-- The device name derived in `update_devices_cache`
(`f"Flume {device.get('product', 'Unknown')}"`). -/
def updateDeviceName (fs : List (String × Json)) : String :=
  "Flume " ++ pyStr (jsonGetD fs "product" (Json.str "Unknown"))

/-- The device name derived in `collect_consumption_data`
(`f"Flume {device.get('product', 'Unknown')}"`). -/
def collectDeviceName (fs : List (String × Json)) : String :=
  "Flume " ++ pyStr (jsonGetD fs "product" (Json.str "Unknown"))

/-- The per-device body of the info-metric loop in `update_devices_cache`.
A non-dict element makes `device.get` raise; the exception is caught by the
surrounding handler after the cache was already replaced, so the loop aborts
with the writes made so far. -/
def infoLoop : List Json → InfoReg → InfoReg
  | [], r => r
  | d :: rest, r =>
    match d with
    | .obj fs =>
      let device_id := jsonGetD fs "id" Json.null
      let device_name := updateDeviceName fs
      let location := "Location " ++ pyStr (jsonGetD fs "location_id" (Json.str "Unknown"))
      let value : List (String × Json) :=
        [("product", jsonGetD fs "product" (Json.str "Unknown")),
         ("type", Json.str (pyStr (jsonGetD fs "type" (Json.str "Unknown")))),
         ("connected", Json.str (pyStr (jsonGetD fs "connected" (Json.bool false))))]
      infoLoop rest (regWrite r (pyStr device_id, device_name, location) value)
    | _ => r

/-- Iterate the fetched devices value: `for device in devices` raises on a
non-list (caught by the surrounding handler, after the cache assignment). -/
def infoWrites (devices : Json) (r : InfoReg) : InfoReg :=
  match devices with
  | .arr ds => infoLoop ds r
  | _ => r

/-- Model of `FlumeExporter.update_devices_cache`: when never populated or stale
(per `cacheStale`), fetch the devices, replace `devices_cache` and
`last_devices_update`, then push each device's metadata into the Info series.
Otherwise do nothing. -/
def FlumeExporter.update_devices_cache (now : Int) (u : Upstream)
    (st : ExporterState) : ExporterState :=
  if cacheStale now st then
    let call := FlumeAPI.get_devices now u st.api
    { st with
      api := call.state
      devices_cache := call.result
      last_devices_update := some now
      info_reg := infoWrites call.result st.info_reg }
  else st

/-- The per-device body of the collection loop in `collect_consumption_data`:
skip falsy ids, fetch (and discard) consumption data, fetch the current flow
rate, and `Gauge.set` it when it `is not None`.  A non-dict device element or
a `float()` failure inside `Gauge.set` raises to the cycle's outer handler,
aborting the remaining devices. -/
def collectLoop (now : Int) (u : Upstream) : List Json → ExporterState → ExporterState
  | [], st => st
  | d :: rest, st =>
    match d with
    | .obj fs =>
      let device_id := jsonGetD fs "id" Json.null
      let device_name := collectDeviceName fs
      if !device_id.truthy then collectLoop now u rest st
      else
        let c := FlumeAPI.get_consumption_data now u (pyStr device_id) st.api
        let f := FlumeAPI.get_current_flow_rate now u (pyStr device_id) c.2
        let st2 : ExporterState := { st with api := f.2 }
        if f.1.isNull then collectLoop now u rest st2
        else
          match pyFloat f.1 with
          | some q =>
            collectLoop now u rest
              { st2 with flow_reg := regWrite st2.flow_reg (pyStr device_id, device_name) q }
          | none => st2
    | _ => st

/-- Model of `FlumeExporter.collect_consumption_data` (one Collector cycle): refresh the
device cache, then run the per-device loop over the cached value (iterating a
non-list cache raises to the cycle's handler, which only logs). -/
def FlumeExporter.collect_consumption_data (now : Int) (u : Upstream)
    (st : ExporterState) : ExporterState :=
  let st1 := FlumeExporter.update_devices_cache now u st
  match st1.devices_cache with
  | .arr ds => collectLoop now u ds st1
  | _ => st1

/-- The list `required_env_vars` in `main`. -/
def required_env_vars : List String :=
  ["FLUME_CLIENT_ID", "FLUME_CLIENT_SECRET", "FLUME_USERNAME", "FLUME_PASSWORD"]

/-- The test `not os.getenv(var)`: unset or empty both count as missing. -/
def envTruthy : Option String → Bool
  | none => false
  | some s => !s.isEmpty

/-- Observable outcome of `main`: the exit status, the missing variable names
reported, and whether the startup path reached any network activity (the
`FlumeAPI.__init__` authentication). -/
structure MainResult where
  exitCode : Nat
  reportedMissing : List String
  attemptedNetwork : Bool

/-- Model of `main`: validate the four required credential variables; report all
missing names and return 1 before any network use, else construct the
exporter (whose `__init__` authenticates), run it with every exception
caught, and return 0. -/
def main_entry (env : String → Option String) : MainResult :=
  let missing := required_env_vars.filter (fun v => !envTruthy (env v))
  if !missing.isEmpty then
    { exitCode := 1, reportedMissing := missing, attemptedNetwork := false }
  else
    { exitCode := 0, reportedMissing := [], attemptedNetwork := true }

/-! ### Proof-layer definitions -/

/-- The state after one `_get_headers` call (identity when the token is valid,
the post-`authenticate` state otherwise). -/
def hstep (now : Int) (u : Upstream) (a : ApiState) : ApiState :=
  (FlumeAPI.get_headers now u a).state

/-- The flow-rate value one `get_current_flow_rate` call observes from state
`a`. -/
def flowVal (now : Int) (u : Upstream) (s : String) (a : ApiState) : Json :=
  (FlumeAPI.get_current_flow_rate now u s a).1

/-- Summary of the state effect of one `authenticate` call.  The control flow
of `authenticate` depends only on the upstream response (never on the current
state), so each run either keeps the state, clears `user_id`, writes only the
token, or rewrites all three attributes — always with values determined by the
response alone. -/
inductive AuthPlan where
  | keep : AuthPlan
  | clearUser : AuthPlan
  | tokenOnly (tok : Json) : AuthPlan
  | full (tok : Json) (exp : Int) (uid : Option String) : AuthPlan

def applyPlan : AuthPlan → ApiState → Bool × ApiState
  | .keep, st => (false, st)
  | .clearUser, st => (false, { st with user_id := none })
  | .tokenOnly tok, st => (false, { st with access_token := tok })
  | .full tok exp uid, _ =>
    (true, { access_token := tok, token_expires_at := some exp, user_id := uid })

/-- The plan an `authenticate` call follows, computed from the response. -/
def authPlanOf (now : Int) (u : Upstream) : AuthPlan :=
  match u.authResp with
  | .raise => .keep
  | .response code body =>
    if statusRaises code then .keep
    else
      match body with
      | none => .keep
      | some tokenData =>
        match tokenData with
        | .obj fs =>
          match jsonLookup fs "data" with
          | some (.arr (tokenInfo :: _)) =>
            match tokenInfo with
            | .obj gs =>
              match jsonLookup gs "access_token" with
              | none => .keep
              | some tok =>
                match pyNum (jsonGetD gs "expires_in" (Json.num 3600)) with
                | none => .tokenOnly tok
                | some n => .full tok (now + n) (decodeJwtUserId tok)
            | _ => .keep
          | _ => .clearUser
        | .arr xs =>
          if xs.any (fun x => match x with | .str s => s = "data" | _ => false) then .keep
          else .clearUser
        | .str s =>
          if hasSubstr "data".toList s.toList then .keep
          else .clearUser
        | _ => .keep

/-- The collection loop, re-expressed as a pure fold over the device list at a
fixed API state `a` (valid once the threaded state has stabilised at `a`). -/
def flowFold (now : Int) (u : Upstream) (a : ApiState) :
    List Json → FlowReg → FlowReg
  | [], r => r
  | d :: rest, r =>
    match d with
    | .obj fs =>
      let device_id := jsonGetD fs "id" Json.null
      if !device_id.truthy then flowFold now u a rest r
      else
        let f := flowVal now u (pyStr device_id) a
        if f.isNull then flowFold now u a rest r
        else
          match pyFloat f with
          | some q =>
            flowFold now u a rest (regWrite r (pyStr device_id, collectDeviceName fs) q)
          | none => r
    | _ => r

/-- The last value the collection loop writes to gauge key `k` (`none` when it
never writes `k`; an aborting element discards the rest of the list). -/
def lastW (now : Int) (u : Upstream) (a : ApiState) :
    List Json → String × String → Option Rat
  | [], _ => none
  | d :: rest, k =>
    match d with
    | .obj fs =>
      let device_id := jsonGetD fs "id" Json.null
      if !device_id.truthy then lastW now u a rest k
      else
        let f := flowVal now u (pyStr device_id) a
        if f.isNull then lastW now u a rest k
        else
          match pyFloat f with
          | some q =>
            match lastW now u a rest k with
            | some v => some v
            | none =>
              if k = (pyStr device_id, collectDeviceName fs) then some q else none
          | none => none
    | _ => none

/-! ### Concrete inputs used by witnesses and counterexamples -/

def fixtureStClean : ApiState :=
  { access_token := .null, token_expires_at := none, user_id := none }

def fixtureStValid : ApiState :=
  { access_token := Json.str "tok", token_expires_at := some 10000, user_id := some "42" }

def fixtureTok7 : Json := Json.str "h.eyJ1c2VyX2lkIjogIjQyIn0.s"

def fixtureEnv7 : Json :=
  Json.obj [("data", Json.arr
    [Json.obj [("access_token", fixtureTok7), ("expires_in", Json.num 3600)]])]

def fixtureU7 : Upstream :=
  { authResp := .response 200 (some fixtureEnv7)
    devicesResp := .response 200 (some (Json.obj [("data", Json.arr [])]))
    consumptionResp := fun _ => .raise
    flowResp := fun _ => .raise }

def fixtureDevA : Json :=
  Json.obj [("id", Json.str "A"), ("product", Json.str "Bridge"), ("location_id", Json.num 9)]

def fixtureDevB : Json :=
  Json.obj [("id", Json.str "B"), ("product", Json.str "Sensor")]

def fixtureDevK : Json :=
  Json.obj [("id", Json.str "K"), ("product", Json.str "Bridge")]

def fixtureUFail : Upstream :=
  { authResp := .raise, devicesResp := .raise
    consumptionResp := fun _ => .raise, flowResp := fun _ => .raise }

def fixtureUNew : Upstream :=
  { fixtureUFail with
    devicesResp := .response 200 (some (Json.obj [("data", Json.arr [fixtureDevB])])) }

def fixtureU302 : Upstream :=
  { fixtureUFail with
    devicesResp := .response 302 (some (Json.obj [("data", Json.arr [fixtureDevA])])) }

def fixtureStCache : ExporterState :=
  { api := fixtureStValid
    devices_cache := Json.arr [fixtureDevA]
    last_devices_update := some 0
    info_reg := fun _ => none
    flow_reg := fun _ => none }

def fixtureUFlow : Upstream :=
  { authResp := .raise, devicesResp := .raise
    consumptionResp := fun _ => .raise
    flowResp := fun s =>
      if s = "A" then .response 200 (some (Json.obj [("data", Json.arr [Json.obj [("gpm", Json.num 2)]])]))
      else if s = "B" then .response 200 (some (Json.obj [("data", Json.arr [Json.obj [("gpm", Json.num 3)]])]))
      else .raise }

def fixtureStCollect : ExporterState :=
  { api := fixtureStValid
    devices_cache := Json.arr [fixtureDevA, fixtureDevK, fixtureDevB]
    last_devices_update := some 0
    info_reg := fun _ => none
    flow_reg := fun _ => none }

def fixtureStPrev : ExporterState :=
  { fixtureStCollect with
    flow_reg := fun k => if k = ("K", "Flume Bridge") then some 7 else none }

def fixtureEnvNone : String → Option String := fun _ => none

def fixtureEnvAll : String → Option String := fun _ => some "x"

/-! ### Stabilisation lemmas for the token state -/

/-- One `authenticate` call acts on the state exactly as its response plan
prescribes; the plan does not depend on the state. -/
theorem authenticate_eq_plan (now : Int) (u : Upstream) (st : ApiState) :
    FlumeAPI.authenticate now u st = applyPlan (authPlanOf now u) st := by
  unfold FlumeAPI.authenticate authPlanOf authSetToken applyPlan
  cases u.authResp with
  | raise => rfl
  | response code body =>
    dsimp only
    split
    · rfl
    · cases body with
      | none => rfl
      | some tokenData =>
        cases tokenData with
        | null => rfl
        | bool b => rfl
        | num q => rfl
        | str s => dsimp only; split <;> rfl
        | arr xs => dsimp only; split <;> rfl
        | obj fs =>
          dsimp only
          split
          · rename_i tokenInfo rest hdata
            cases tokenInfo with
            | obj gs =>
              dsimp only
              cases jsonLookup gs "access_token" with
              | none => rfl
              | some tok =>
                dsimp only
                cases pyNum (jsonGetD gs "expires_in" (Json.num 3600)) with
                | none => rfl
                | some n =>
                  dsimp only
                  cases decodeJwtUserId tok <;> rfl
            | null => rfl
            | bool b => rfl
            | num q => rfl
            | str s => rfl
            | arr ys => rfl
          · rfl

/-- Applying the same plan twice is the same as applying it once (all writes
are constants determined by the plan). -/
theorem applyPlan_idem (p : AuthPlan) (st : ApiState) :
    applyPlan p (applyPlan p st).2 = applyPlan p st := by
  cases p <;> rfl

/-- One `authenticate` call is idempotent on the state. -/
theorem authenticate_idem (now : Int) (u : Upstream) (st : ApiState) :
    FlumeAPI.authenticate now u (FlumeAPI.authenticate now u st).2 =
      FlumeAPI.authenticate now u st := by
  rw [authenticate_eq_plan, authenticate_eq_plan]
  exact applyPlan_idem _ _

/-- A valid token makes `_get_headers` a no-op on the state. -/
theorem hstep_valid (now : Int) (u : Upstream) (a : ApiState)
    (h : tokenInvalid now a = false) : hstep now u a = a := by
  unfold hstep FlumeAPI.get_headers
  rw [h]
  rfl

/-- With an invalid token, `_get_headers` leaves the post-`authenticate`
state. -/
theorem hstep_invalid (now : Int) (u : Upstream) (a : ApiState)
    (h : tokenInvalid now a = true) :
    hstep now u a = (FlumeAPI.authenticate now u a).2 := by
  unfold hstep FlumeAPI.get_headers
  rw [h]
  rcases hh : FlumeAPI.authenticate now u a with ⟨b, st2⟩
  cases b <;> simp

/-- The `_get_headers` state transition is idempotent. -/
theorem hstep_idem (now : Int) (u : Upstream) (a : ApiState) :
    hstep now u (hstep now u a) = hstep now u a := by
  by_cases h : tokenInvalid now a
  · rw [hstep_invalid now u a h]
    by_cases h2 : tokenInvalid now (FlumeAPI.authenticate now u a).2
    · rw [hstep_invalid now u _ h2, authenticate_idem]
    · exact hstep_valid now u _ (by simpa using h2)
  · rw [hstep_valid now u a (by simpa using h), hstep_valid now u a (by simpa using h)]

/-- A consumption call leaves the API state produced by its `_get_headers`
call, whatever the response. -/
theorem consumption_state (now : Int) (u : Upstream) (s : String) (a : ApiState) :
    (FlumeAPI.get_consumption_data now u s a).2 = hstep now u a := by
  unfold FlumeAPI.get_consumption_data hstep
  generalize FlumeAPI.get_headers now u a = h
  dsimp only
  by_cases hok : (!h.ok) = true
  · rw [if_pos hok]
  · rw [if_neg hok]
    cases u.consumptionResp s with
    | raise => rfl
    | response code body =>
      dsimp only
      by_cases hc : statusRaises code = true
      · rw [if_pos hc]
      · rw [if_neg hc]
        cases body <;> rfl

/-- A flow-rate call leaves the API state produced by its `_get_headers`
call, whatever the response. -/
theorem flow_state (now : Int) (u : Upstream) (s : String) (a : ApiState) :
    (FlumeAPI.get_current_flow_rate now u s a).2 = hstep now u a := by
  unfold FlumeAPI.get_current_flow_rate hstep
  generalize FlumeAPI.get_headers now u a = h
  dsimp only
  by_cases hok : (!h.ok) = true
  · rw [if_pos hok]
  · rw [if_neg hok]
    cases u.flowResp s with
    | raise => rfl
    | response code body =>
      dsimp only
      by_cases hc : statusRaises code = true
      · rw [if_pos hc]
      · rw [if_neg hc]
        cases body <;> rfl

/-- A devices call either returns early (state unchanged) or leaves its
`_get_headers` state. -/
theorem get_devices_state (now : Int) (u : Upstream) (a : ApiState) :
    (FlumeAPI.get_devices now u a).state = a ∨
      (FlumeAPI.get_devices now u a).state = hstep now u a := by
  unfold FlumeAPI.get_devices hstep
  by_cases hu : (!userTruthy a.user_id) = true
  · rw [if_pos hu]
    exact Or.inl rfl
  · rw [if_neg hu]
    refine Or.inr ?_
    generalize FlumeAPI.get_headers now u a = h
    dsimp only
    by_cases hok : (!h.ok) = true
    · rw [if_pos hok]
    · rw [if_neg hok]
      cases u.devicesResp with
      | raise => rfl
      | response code body =>
        dsimp only
        by_cases hc : statusRaises code = true
        · rw [if_pos hc]
        · rw [if_neg hc]
          cases body with
          | none => rfl
          | some data => cases data <;> rfl

/-- When the upstream devices request raises, `get_devices` returns the empty
list whatever path it took. -/
theorem get_devices_raise (now : Int) (u : Upstream) (a : ApiState)
    (h : u.devicesResp = HttpOutcome.raise) :
    (FlumeAPI.get_devices now u a).result = Json.arr [] := by
  unfold FlumeAPI.get_devices
  by_cases hu : (!userTruthy a.user_id) = true
  · rw [if_pos hu]
  · rw [if_neg hu]
    generalize FlumeAPI.get_headers now u a = hh
    dsimp only
    by_cases hok : (!hh.ok) = true
    · rw [if_pos hok]
    · rw [if_neg hok, h]

/-- The first component of a flow-rate call is `flowVal`. -/
theorem flow_fst (now : Int) (u : Upstream) (s : String) (a : ApiState) :
    (FlumeAPI.get_current_flow_rate now u s a).1 = flowVal now u s a := rfl

/-- Characterisation of the collection loop: it only writes the flow gauge
(per `flowFold` at the stabilised API state), leaves the other exporter fields
unchanged, and preserves the header-step closure of the API state. -/
theorem collectLoop_spec (now : Int) (u : Upstream) (ds : List Json) :
    ∀ st : ExporterState,
      (collectLoop now u ds st).flow_reg
          = flowFold now u (hstep now u st.api) ds st.flow_reg ∧
        (collectLoop now u ds st).info_reg = st.info_reg ∧
        (collectLoop now u ds st).devices_cache = st.devices_cache ∧
        (collectLoop now u ds st).last_devices_update = st.last_devices_update ∧
        hstep now u (collectLoop now u ds st).api = hstep now u st.api := by
  induction ds with
  | nil => exact fun st => ⟨rfl, rfl, rfl, rfl, rfl⟩
  | cons d rest ih =>
    intro st
    cases d with
    | obj fs =>
      simp only [collectLoop, flowFold]
      by_cases hid : (!(jsonGetD fs "id" Json.null).truthy) = true
      · rw [if_pos hid, if_pos hid]
        exact ih st
      · rw [if_neg hid, if_neg hid]
        rw [consumption_state now u (pyStr (jsonGetD fs "id" Json.null)) st.api]
        rw [flow_state, hstep_idem, flow_fst]
        by_cases hnull : (flowVal now u (pyStr (jsonGetD fs "id" Json.null))
            (hstep now u st.api)).isNull = true
        · rw [if_pos hnull, if_pos hnull]
          have h2 := ih { st with api := hstep now u st.api }
          simpa [hstep_idem] using h2
        · rw [if_neg hnull, if_neg hnull]
          cases hq : pyFloat (flowVal now u (pyStr (jsonGetD fs "id" Json.null))
              (hstep now u st.api)) with
          | none => exact ⟨rfl, rfl, rfl, rfl, by simpa using hstep_idem now u st.api⟩
          | some q =>
            have h2 := ih
              { st with api := hstep now u st.api,
                        flow_reg := regWrite st.flow_reg
                          (pyStr (jsonGetD fs "id" Json.null), collectDeviceName fs) q }
            simpa [hstep_idem] using h2
    | null => exact ⟨rfl, rfl, rfl, rfl, rfl⟩
    | bool b => exact ⟨rfl, rfl, rfl, rfl, rfl⟩
    | num q => exact ⟨rfl, rfl, rfl, rfl, rfl⟩
    | str s => exact ⟨rfl, rfl, rfl, rfl, rfl⟩
    | arr xs => exact ⟨rfl, rfl, rfl, rfl, rfl⟩

/-- The refresh `update_devices_cache` never touches the flow gauge. -/
theorem update_flow (now : Int) (u : Upstream) (st : ExporterState) :
    (FlumeExporter.update_devices_cache now u st).flow_reg = st.flow_reg := by
  unfold FlumeExporter.update_devices_cache
  split <;> rfl

/-- A fresh cache makes `update_devices_cache` a no-op. -/
theorem update_no (now : Int) (u : Upstream) (st : ExporterState)
    (h : cacheStale now st = false) :
    FlumeExporter.update_devices_cache now u st = st := by
  unfold FlumeExporter.update_devices_cache
  rw [h]
  rfl

/-- A stale cache makes `update_devices_cache` replace the cache with the
fetched value and stamp the current time. -/
theorem update_yes (now : Int) (u : Upstream) (st : ExporterState)
    (h : cacheStale now st = true) :
    FlumeExporter.update_devices_cache now u st =
      { st with
        api := (FlumeAPI.get_devices now u st.api).state
        devices_cache := (FlumeAPI.get_devices now u st.api).result
        last_devices_update := some now
        info_reg := infoWrites (FlumeAPI.get_devices now u st.api).result st.info_reg } := by
  unfold FlumeExporter.update_devices_cache
  rw [h]
  rfl

/-- The refresh `update_devices_cache` preserves the header-step closure of the API
state. -/
theorem update_api_hstep (now : Int) (u : Upstream) (st : ExporterState) :
    hstep now u (FlumeExporter.update_devices_cache now u st).api
      = hstep now u st.api := by
  by_cases h : cacheStale now st = true
  · rw [update_yes now u st h]
    rcases get_devices_state now u st.api with hd | hd
    · show hstep now u (FlumeAPI.get_devices now u st.api).state = hstep now u st.api
      rw [hd]
    · show hstep now u (FlumeAPI.get_devices now u st.api).state = hstep now u st.api
      rw [hd, hstep_idem]
  · rw [update_no now u st (by simpa using h)]

/-- Pointwise characterisation of `flowFold`: the final gauge value at a key
is its last write, or the initial value when it is never written. -/
theorem flowFold_char (now : Int) (u : Upstream) (a : ApiState) (ds : List Json) :
    ∀ (r : FlowReg) (k : String × String),
      flowFold now u a ds r k =
        match lastW now u a ds k with
        | some v => some v
        | none => r k := by
  induction ds with
  | nil => intro r k; rfl
  | cons d rest ih =>
    intro r k
    cases d with
    | obj fs =>
      simp only [flowFold, lastW]
      by_cases hid : (!(jsonGetD fs "id" Json.null).truthy) = true
      · rw [if_pos hid, if_pos hid]
        exact ih r k
      · rw [if_neg hid, if_neg hid]
        by_cases hnull : (flowVal now u (pyStr (jsonGetD fs "id" Json.null))
            a).isNull = true
        · rw [if_pos hnull, if_pos hnull]
          exact ih r k
        · rw [if_neg hnull, if_neg hnull]
          cases hq : pyFloat (flowVal now u (pyStr (jsonGetD fs "id" Json.null)) a) with
          | none => rfl
          | some q =>
            dsimp only
            rw [ih (regWrite r (pyStr (jsonGetD fs "id" Json.null), collectDeviceName fs) q) k]
            cases lastW now u a rest k with
            | some v => rfl
            | none =>
              dsimp only
              unfold regWrite
              by_cases hk :
                  k = (pyStr (jsonGetD fs "id" Json.null), collectDeviceName fs)
              · rw [if_pos hk, if_pos hk]
              · rw [if_neg hk, if_neg hk]
    | null => rfl
    | bool b => rfl
    | num q => rfl
    | str s => rfl
    | arr xs => rfl

/-- Running the collection fold twice over the same list at the same state
yields the same gauge contents as running it once. -/
theorem flowFold_idem (now : Int) (u : Upstream) (a : ApiState) (ds : List Json)
    (r : FlowReg) :
    flowFold now u a ds (flowFold now u a ds r) = flowFold now u a ds r := by
  funext k
  rw [flowFold_char, flowFold_char]
  cases h : lastW now u a ds k with
  | some v => rfl
  | none => dsimp only

theorem isNum_exists (j : Json) (h : j.isNum = true) : ∃ q, j = Json.num q := by
  cases j <;> simp [Json.isNum] at h ⊢

theorem pyFloat_num (q : Rat) : pyFloat (Json.num q) = some q := rfl

/-- Every write the loop makes to key `k` carries the flow value fetched for
`k`'s device-id string, so when that value is the number `v`, any final write
at `k` is `v`. -/
theorem lastW_val (now : Int) (u : Upstream) (a : ApiState) (k : String × String)
    (v : Rat) (hv : flowVal now u k.1 a = Json.num v) :
    ∀ (ds : List Json) (w : Rat), lastW now u a ds k = some w → w = v := by
  intro ds
  induction ds with
  | nil => intro w hw; exact absurd hw (by simp [lastW])
  | cons d rest ih =>
    intro w hw
    cases d with
    | obj fs =>
      simp only [lastW] at hw
      by_cases hid : (!(jsonGetD fs "id" Json.null).truthy) = true
      · rw [if_pos hid] at hw
        exact ih w hw
      · rw [if_neg hid] at hw
        by_cases hnull : (flowVal now u (pyStr (jsonGetD fs "id" Json.null)) a).isNull = true
        · rw [if_pos hnull] at hw
          exact ih w hw
        · rw [if_neg hnull] at hw
          cases hq : pyFloat (flowVal now u (pyStr (jsonGetD fs "id" Json.null)) a) with
          | none => rw [hq] at hw; exact absurd hw (by simp)
          | some q =>
            rw [hq] at hw
            dsimp only at hw
            cases hl : lastW now u a rest k with
            | some w2 =>
              rw [hl] at hw
              dsimp only at hw
              cases hw
              exact ih w hl
            | none =>
              rw [hl] at hw
              dsimp only at hw
              by_cases hk : k = (pyStr (jsonGetD fs "id" Json.null), collectDeviceName fs)
              · rw [if_pos hk] at hw
                cases hw
                have h1 : k.1 = pyStr (jsonGetD fs "id" Json.null) := by rw [hk]
                rw [← h1, hv, pyFloat_num] at hq
                exact (Option.some_inj.mp hq).symm
              · rw [if_neg hk] at hw
                exact absurd hw (by simp)
    | null => exact absurd hw (by simp [lastW])
    | bool b => exact absurd hw (by simp [lastW])
    | num q => exact absurd hw (by simp [lastW])
    | str s => exact absurd hw (by simp [lastW])
    | arr xs => exact absurd hw (by simp [lastW])

/-- If every element of the cache is a dict and every fetched flow value is
absent or numeric (so no write aborts the loop), then a device with a truthy
id whose fetched flow value is the number `v` ends up with `v` recorded at its
label tuple. -/
theorem lastW_mem (now : Int) (u : Upstream) (a : ApiState) (v : Rat) :
    ∀ ds : List Json,
      (∀ e ∈ ds, e.isObj = true) →
      (∀ e ∈ ds,
        (flowVal now u (pyStr (jsonGetD e.fields "id" Json.null)) a).isNull = true ∨
          (flowVal now u (pyStr (jsonGetD e.fields "id" Json.null)) a).isNum = true) →
      ∀ fs : List (String × Json), Json.obj fs ∈ ds →
        (jsonGetD fs "id" Json.null).truthy = true →
        flowVal now u (pyStr (jsonGetD fs "id" Json.null)) a = Json.num v →
        lastW now u a ds (pyStr (jsonGetD fs "id" Json.null), collectDeviceName fs)
          = some v := by
  intro ds
  induction ds with
  | nil => intro _ _ fs hmem; exact absurd hmem (by simp)
  | cons e rest ih =>
    intro hobj hsafe fs hmem hid hv
    rcases List.mem_cons.mp hmem with he | he
    · subst he
      simp only [lastW]
      rw [if_neg (by simp [hid])]
      rw [hv]
      rw [if_neg (by simp [Json.isNull])]
      rw [show pyFloat (Json.num v) = some v from rfl]
      dsimp only
      cases hl : lastW now u a rest
          (pyStr (jsonGetD fs "id" Json.null), collectDeviceName fs) with
      | some w =>
        have hw := lastW_val now u a
          (pyStr (jsonGetD fs "id" Json.null), collectDeviceName fs) v hv rest w hl
        rw [hw]
      | none => simp
    · have hobjE := hobj e (List.mem_cons_self e rest)
      obtain ⟨gs, hegs⟩ : ∃ gs, e = Json.obj gs := by
        cases e <;> simp [Json.isObj] at hobjE ⊢
      subst hegs
      have hsafeE := hsafe (Json.obj gs) (List.mem_cons_self _ rest)
      simp only [Json.fields] at hsafeE
      have ihres := ih (fun x hx => hobj x (List.mem_cons_of_mem _ hx))
        (fun x hx => hsafe x (List.mem_cons_of_mem _ hx)) fs he hid hv
      simp only [lastW]
      by_cases hidE : (!(jsonGetD gs "id" Json.null).truthy) = true
      · rw [if_pos hidE]
        exact ihres
      · rw [if_neg hidE]
        by_cases hnullE : (flowVal now u (pyStr (jsonGetD gs "id" Json.null)) a).isNull = true
        · rw [if_pos hnullE]
          exact ihres
        · rw [if_neg hnullE]
          have hnum : (flowVal now u (pyStr (jsonGetD gs "id" Json.null)) a).isNum = true := by
            rcases hsafeE with h | h
            · exact absurd h (by simpa using hnullE)
            · exact h
          obtain ⟨q, hq⟩ := isNum_exists _ hnum
          rw [hq, pyFloat_num]
          dsimp only
          rw [ihres]

/-- When the fetched flow value for device-id string `s` is absent, the loop
never writes any gauge key whose first component is `s`. -/
theorem lastW_null (now : Int) (u : Upstream) (a : ApiState) (s : String)
    (hs : flowVal now u s a = Json.null) :
    ∀ (ds : List Json) (n : String), lastW now u a ds (s, n) = none := by
  intro ds
  induction ds with
  | nil => intro n; rfl
  | cons d rest ih =>
    intro n
    cases d with
    | obj fs =>
      simp only [lastW]
      by_cases hid : (!(jsonGetD fs "id" Json.null).truthy) = true
      · rw [if_pos hid]
        exact ih n
      · rw [if_neg hid]
        by_cases hnull : (flowVal now u (pyStr (jsonGetD fs "id" Json.null)) a).isNull = true
        · rw [if_pos hnull]
          exact ih n
        · rw [if_neg hnull]
          cases hq : pyFloat (flowVal now u (pyStr (jsonGetD fs "id" Json.null)) a) with
          | none => rfl
          | some q =>
            dsimp only
            rw [ih n]
            have hks : ¬ ((s, n) = (pyStr (jsonGetD fs "id" Json.null), collectDeviceName fs)) := by
              intro hk
              have h1 : s = pyStr (jsonGetD fs "id" Json.null) := congrArg Prod.fst hk
              rw [← h1, hs] at hnull
              exact hnull rfl
            rw [if_neg hks]
    | null => rfl
    | bool b => rfl
    | num q => rfl
    | str s2 => rfl
    | arr xs => rfl

/-- Unfolding of one collector cycle: the refresh, then the loop over the
(possibly replaced) cache. -/
theorem collect_def (now : Int) (u : Upstream) (st : ExporterState) :
    FlumeExporter.collect_consumption_data now u st =
      (fun st1 : ExporterState =>
        match st1.devices_cache with
        | Json.arr ds => collectLoop now u ds st1
        | _ => st1) (FlumeExporter.update_devices_cache now u st) := rfl

/-- A state whose cache was just stamped at `now` is fresh at `now`. -/
theorem cacheStale_self (now : Int) (st : ExporterState)
    (h : st.last_devices_update = some now) : cacheStale now st = false := by
  unfold cacheStale
  rw [h]
  dsimp only
  rw [sub_self]
  decide

/-- Staleness only looks at the cache timestamp. -/
theorem cacheStale_congr (now : Int) (st1 st2 : ExporterState)
    (h : st1.last_devices_update = st2.last_devices_update) :
    cacheStale now st1 = cacheStale now st2 := by
  unfold cacheStale
  rw [h]

/-- A collector cycle leaves the cache timestamp either stamped at `now` (it
refreshed) or untouched with the cache already fresh. -/
theorem collect_last (now : Int) (u : Upstream) (st : ExporterState) :
    (FlumeExporter.collect_consumption_data now u st).last_devices_update = some now ∨
      ((FlumeExporter.collect_consumption_data now u st).last_devices_update
          = st.last_devices_update ∧ cacheStale now st = false) := by
  rw [collect_def]
  by_cases h : cacheStale now st = true
  · left
    rw [update_yes now u st h]
    dsimp only
    cases hr : (FlumeAPI.get_devices now u st.api).result with
    | arr ds =>
      rw [(collectLoop_spec now u ds _).2.2.2.1]
    | null => rfl
    | bool b => rfl
    | num q => rfl
    | str s => rfl
    | obj fs => rfl
  · right
    refine ⟨?_, by simpa using h⟩
    rw [update_no now u st (by simpa using h)]
    dsimp only
    cases hr : st.devices_cache with
    | arr ds => rw [(collectLoop_spec now u ds _).2.2.2.1]
    | null => rfl
    | bool b => rfl
    | num q => rfl
    | str s => rfl
    | obj fs => rfl

/-- After a collector cycle the cache is fresh: an immediately repeated cycle
at the same instant does not refresh again. -/
theorem collect_fresh (now : Int) (u : Upstream) (st : ExporterState) :
    cacheStale now (FlumeExporter.collect_consumption_data now u st) = false := by
  rcases collect_last now u st with h | ⟨h1, h2⟩
  · exact cacheStale_self now _ h
  · rw [cacheStale_congr now _ st h1]
    exact h2

/-- When the cached value is not a list, the cycle stops at the refresh (the
loop raises immediately and the handler only logs). -/
theorem collect_stuck (now : Int) (u : Upstream) (st : ExporterState)
    (h : ∀ ds, (FlumeExporter.update_devices_cache now u st).devices_cache ≠ Json.arr ds) :
    FlumeExporter.collect_consumption_data now u st
      = FlumeExporter.update_devices_cache now u st := by
  rw [collect_def]
  dsimp only
  cases hc : (FlumeExporter.update_devices_cache now u st).devices_cache with
  | arr ds => exact absurd hc (h ds)
  | null => rfl
  | bool b => rfl
  | num q => rfl
  | str s => rfl
  | obj fs => rfl

/-! ### Claims -/

/-- C6: Running one collector cycle twice in succession against identical
upstream responses (same device list, same flow rates) yields the same final
metric-registry contents (both the flow gauge and the device-info series) as
running it once: the cycle is idempotent on the metric state. -/
theorem claim6_cycle_idempotent (now : Int) (u : Upstream) (st : ExporterState) :
    (FlumeExporter.collect_consumption_data now u
        (FlumeExporter.collect_consumption_data now u st)).flow_reg
      = (FlumeExporter.collect_consumption_data now u st).flow_reg ∧
    (FlumeExporter.collect_consumption_data now u
        (FlumeExporter.collect_consumption_data now u st)).info_reg
      = (FlumeExporter.collect_consumption_data now u st).info_reg := by
  have hfresh := collect_fresh now u st
  have hupd2 := update_no now u (FlumeExporter.collect_consumption_data now u st) hfresh
  cases hcache : (FlumeExporter.update_devices_cache now u st).devices_cache with
  | arr ds =>
    have hCst : FlumeExporter.collect_consumption_data now u st
        = collectLoop now u ds (FlumeExporter.update_devices_cache now u st) := by
      rw [collect_def]
      dsimp only
      rw [hcache]
    have spec := collectLoop_spec now u ds (FlumeExporter.update_devices_cache now u st)
    have hCcache : (FlumeExporter.collect_consumption_data now u st).devices_cache
        = Json.arr ds := by
      rw [hCst, spec.2.2.1, hcache]
    have houter : FlumeExporter.collect_consumption_data now u
        (FlumeExporter.collect_consumption_data now u st)
        = collectLoop now u ds (FlumeExporter.collect_consumption_data now u st) := by
      conv_lhs => rw [collect_def]
      rw [hupd2]
      dsimp only
      rw [hCcache]
    have spec2 := collectLoop_spec now u ds (FlumeExporter.collect_consumption_data now u st)
    constructor
    · rw [houter, spec2.1]
      have hapi : hstep now u (FlumeExporter.collect_consumption_data now u st).api
          = hstep now u (FlumeExporter.update_devices_cache now u st).api := by
        rw [hCst]
        exact spec.2.2.2.2
      have hflow : (FlumeExporter.collect_consumption_data now u st).flow_reg
          = flowFold now u
              (hstep now u (FlumeExporter.update_devices_cache now u st).api) ds
              (FlumeExporter.update_devices_cache now u st).flow_reg := by
        rw [hCst]
        exact spec.1
      rw [hapi]
      conv_lhs => rw [hflow]
      rw [flowFold_idem]
      exact hflow.symm
    · rw [houter]
      exact spec2.2.1
  | null =>
    have hCst := collect_stuck now u st
      (fun ds hds => by rw [hcache] at hds; exact Json.noConfusion hds)
    have hCcache : (FlumeExporter.collect_consumption_data now u st).devices_cache
        = (FlumeExporter.update_devices_cache now u st).devices_cache := by rw [hCst]
    have houter := collect_stuck now u (FlumeExporter.collect_consumption_data now u st)
      (fun ds hds => by rw [hupd2, hCcache, hcache] at hds; exact Json.noConfusion hds)
    exact ⟨by rw [houter, hupd2], by rw [houter, hupd2]⟩
  | bool b =>
    have hCst := collect_stuck now u st
      (fun ds hds => by rw [hcache] at hds; exact Json.noConfusion hds)
    have hCcache : (FlumeExporter.collect_consumption_data now u st).devices_cache
        = (FlumeExporter.update_devices_cache now u st).devices_cache := by rw [hCst]
    have houter := collect_stuck now u (FlumeExporter.collect_consumption_data now u st)
      (fun ds hds => by rw [hupd2, hCcache, hcache] at hds; exact Json.noConfusion hds)
    exact ⟨by rw [houter, hupd2], by rw [houter, hupd2]⟩
  | num q =>
    have hCst := collect_stuck now u st
      (fun ds hds => by rw [hcache] at hds; exact Json.noConfusion hds)
    have hCcache : (FlumeExporter.collect_consumption_data now u st).devices_cache
        = (FlumeExporter.update_devices_cache now u st).devices_cache := by rw [hCst]
    have houter := collect_stuck now u (FlumeExporter.collect_consumption_data now u st)
      (fun ds hds => by rw [hupd2, hCcache, hcache] at hds; exact Json.noConfusion hds)
    exact ⟨by rw [houter, hupd2], by rw [houter, hupd2]⟩
  | str s =>
    have hCst := collect_stuck now u st
      (fun ds hds => by rw [hcache] at hds; exact Json.noConfusion hds)
    have hCcache : (FlumeExporter.collect_consumption_data now u st).devices_cache
        = (FlumeExporter.update_devices_cache now u st).devices_cache := by rw [hCst]
    have houter := collect_stuck now u (FlumeExporter.collect_consumption_data now u st)
      (fun ds hds => by rw [hupd2, hCcache, hcache] at hds; exact Json.noConfusion hds)
    exact ⟨by rw [houter, hupd2], by rw [houter, hupd2]⟩
  | obj fs =>
    have hCst := collect_stuck now u st
      (fun ds hds => by rw [hcache] at hds; exact Json.noConfusion hds)
    have hCcache : (FlumeExporter.collect_consumption_data now u st).devices_cache
        = (FlumeExporter.update_devices_cache now u st).devices_cache := by rw [hCst]
    have houter := collect_stuck now u (FlumeExporter.collect_consumption_data now u st)
      (fun ds hds => by rw [hupd2, hCcache, hcache] at hds; exact Json.noConfusion hds)
    exact ⟨by rw [houter, hupd2], by rw [houter, hupd2]⟩

/-- C1 (counterexample): with a populated, stale cache and an upstream device
fetch that fails (the HTTP request raises), the refresh does NOT leave the
previous cached device list in place: `get_devices` swallows the failure and
returns `[]`, and the refresh replaces the cache with that empty list. -/
theorem claim1_cache_cleared_cex :
    (FlumeExporter.update_devices_cache 4000 fixtureUFail fixtureStCache).devices_cache
        = Json.arr [] ∧
      fixtureStCache.devices_cache = Json.arr [fixtureDevA] ∧
      Json.arr ([] : List Json) ≠ Json.arr [fixtureDevA] := by
  refine ⟨rfl, rfl, ?_⟩
  intro h
  injection h with h2
  exact List.noConfusion h2

/-- C1 (amended): when a refresh is due (cache never populated or stale) and
the upstream device fetch fails, the refresh replaces the cache with the
empty device list returned by `get_devices` and stamps the fetch time; the
previous cached list is not preserved.  (Only an exception raised inside
`update_devices_cache` itself after the fetch would leave the cache alone,
and `get_devices` never raises.) -/
theorem claim1_fetch_failure_empties_cache (now : Int) (u : Upstream)
    (st : ExporterState) (hstale : cacheStale now st = true)
    (hfail : u.devicesResp = HttpOutcome.raise) :
    (FlumeExporter.update_devices_cache now u st).devices_cache = Json.arr [] ∧
      (FlumeExporter.update_devices_cache now u st).last_devices_update = some now := by
  rw [update_yes now u st hstale]
  exact ⟨get_devices_raise now u st.api hfail, rfl⟩

theorem claim1_fetch_failure_empties_cache_witness :
    (FlumeExporter.update_devices_cache 4000 fixtureUFail fixtureStCache).devices_cache
        = Json.arr [] ∧
      (FlumeExporter.update_devices_cache 4000 fixtureUFail
          fixtureStCache).last_devices_update = some 4000 :=
  claim1_fetch_failure_empties_cache 4000 fixtureUFail fixtureStCache (by decide) rfl

/-- C2 (code bug): a cache fetched 25 hours ago (age 90000 s, far beyond the
3600 s TTL) is NOT refreshed, because the staleness test uses the timedelta
`.seconds` component (90000 s normalises to 1 day + 3600 s, so `.seconds` is
exactly 3600, not greater than the TTL).  For contrast, the same state IS
refreshed at age 4000 s, inside the first day. -/
theorem claim2_day_old_cache_not_refetched :
    FlumeExporter.update_devices_cache 90000 fixtureUNew fixtureStCache = fixtureStCache ∧
      (90000 : Int) - 0 > devices_cache_ttl ∧
      (FlumeExporter.update_devices_cache 4000 fixtureUNew fixtureStCache).devices_cache
        = Json.arr [fixtureDevB] := by
  refine ⟨rfl, by decide, rfl⟩

/-- C3: when the stored access token is a non-empty string and the current
time is before its expiry, `_get_headers` returns at once with the cached
state and no authentication call; when the token is absent (`None`) or the
current time is at or past the stored expiry, exactly one reauthentication is
performed. -/
theorem claim3_token_validity_gates_reauth (now : Int) (u : Upstream) (st : ApiState) :
    (∀ s t, st.access_token = Json.str s → s ≠ "" → st.token_expires_at = some t →
        now < t → FlumeAPI.get_headers now u st = ⟨true, st, 0⟩) ∧
    ((st.access_token = Json.null ∨ ∃ t, st.token_expires_at = some t ∧ t ≤ now) →
        (FlumeAPI.get_headers now u st).authCalls = 1) := by
  constructor
  · intro s t ha hs he hlt
    have hse : s.isEmpty = false := by
      cases hh : s.isEmpty
      · rfl
      · exact absurd ((String.isEmpty_iff s).mp hh) hs
    have hinv : tokenInvalid now st = false := by
      unfold tokenInvalid
      rw [ha, he]
      dsimp only [Json.truthy]
      rw [hse, decide_eq_false (not_le.mpr hlt)]
      rfl
    unfold FlumeAPI.get_headers
    rw [hinv]
    rfl
  · intro h
    have hinv : tokenInvalid now st = true := by
      unfold tokenInvalid
      rcases h with h | ⟨t, he, hle⟩
      · rw [h]
        rfl
      · rw [he]
        dsimp only
        rw [decide_eq_true hle]
        simp
    unfold FlumeAPI.get_headers
    rw [hinv]
    simp only [if_true]
    rcases hh : FlumeAPI.authenticate now u st with ⟨b, st2⟩
    cases b <;> rfl

theorem claim3_token_validity_gates_reauth_witness :
    FlumeAPI.get_headers 100 fixtureUFail fixtureStValid
        = ⟨true, fixtureStValid, 0⟩ ∧
      (FlumeAPI.get_headers 100 fixtureUFail fixtureStClean).authCalls = 1 :=
  ⟨(claim3_token_validity_gates_reauth 100 fixtureUFail fixtureStValid).1 "tok" 10000
      rfl (by decide) rfl (by decide),
   (claim3_token_validity_gates_reauth 100 fixtureUFail fixtureStClean).2 (Or.inl rfl)⟩

/-- C4 (counterexample): a non-2xx status is not always converted to an empty
result: `raise_for_status` only raises for 4xx/5xx, so a 302 response with a
well-formed body makes `get_devices` return its device list. -/
theorem claim4_redirect_status_returns_data_cex :
    (FlumeAPI.get_devices 0 fixtureU302 fixtureStValid).result = Json.arr [fixtureDevA] ∧
      Json.arr [fixtureDevA] ≠ Json.arr ([] : List Json) := by
  refine ⟨rfl, ?_⟩
  intro h
  injection h with h2
  exact List.noConfusion h2

/-- C4 (amended): for each API data call, a non-empty / present result can
only arise from successful headers (no failed reauthentication) and an
upstream response that carries a status outside the raising 4xx/5xx range and
a JSON-parseable body; contrapositively, every failure mode — HTTP error,
4xx/5xx status, unparseable body, unexpected JSON shape, or failed
reauthentication — yields the empty sequence (devices, consumption) or the
absent value (flow rate), and the model is total, so no exception reaches the
caller. -/
theorem claim4_failures_yield_empty (now : Int) (u : Upstream) (st : ApiState)
    (s : String) :
    ((FlumeAPI.get_devices now u st).result ≠ Json.arr [] →
        (FlumeAPI.get_headers now u st).ok = true ∧
          ∃ code data, u.devicesResp = HttpOutcome.response code (some data) ∧
            statusRaises code = false) ∧
    ((FlumeAPI.get_consumption_data now u s st).1 ≠ Json.arr [] →
        (FlumeAPI.get_headers now u st).ok = true ∧
          ∃ code data, u.consumptionResp s = HttpOutcome.response code (some data) ∧
            statusRaises code = false) ∧
    ((FlumeAPI.get_current_flow_rate now u s st).1 ≠ Json.null →
        (FlumeAPI.get_headers now u st).ok = true ∧
          ∃ code data, u.flowResp s = HttpOutcome.response code (some data) ∧
            statusRaises code = false) := by
  refine ⟨?_, ?_, ?_⟩
  · intro hne
    unfold FlumeAPI.get_devices at hne
    dsimp only at hne
    by_cases hu : (!userTruthy st.user_id) = true
    · rw [if_pos hu] at hne
      exact absurd rfl hne
    · rw [if_neg hu] at hne
      by_cases hok : (!(FlumeAPI.get_headers now u st).ok) = true
      · rw [if_pos hok] at hne
        exact absurd rfl hne
      · rw [if_neg hok] at hne
        refine ⟨by simpa using hok, ?_⟩
        cases hr : u.devicesResp with
        | raise =>
          rw [hr] at hne
          exact absurd rfl hne
        | response code body =>
          rw [hr] at hne
          dsimp only at hne
          by_cases hc : statusRaises code = true
          · rw [if_pos hc] at hne
            exact absurd rfl hne
          · rw [if_neg hc] at hne
            cases body with
            | none => exact absurd rfl hne
            | some data => exact ⟨code, data, rfl, by simpa using hc⟩
  · intro hne
    unfold FlumeAPI.get_consumption_data at hne
    dsimp only at hne
    by_cases hok : (!(FlumeAPI.get_headers now u st).ok) = true
    · rw [if_pos hok] at hne
      exact absurd rfl hne
    · rw [if_neg hok] at hne
      refine ⟨by simpa using hok, ?_⟩
      cases hr : u.consumptionResp s with
      | raise =>
        rw [hr] at hne
        exact absurd rfl hne
      | response code body =>
        rw [hr] at hne
        dsimp only at hne
        by_cases hc : statusRaises code = true
        · rw [if_pos hc] at hne
          exact absurd rfl hne
        · rw [if_neg hc] at hne
          cases body with
          | none => exact absurd rfl hne
          | some data => exact ⟨code, data, rfl, by simpa using hc⟩
  · intro hne
    unfold FlumeAPI.get_current_flow_rate at hne
    dsimp only at hne
    by_cases hok : (!(FlumeAPI.get_headers now u st).ok) = true
    · rw [if_pos hok] at hne
      exact absurd rfl hne
    · rw [if_neg hok] at hne
      refine ⟨by simpa using hok, ?_⟩
      cases hr : u.flowResp s with
      | raise =>
        rw [hr] at hne
        exact absurd rfl hne
      | response code body =>
        rw [hr] at hne
        dsimp only at hne
        by_cases hc : statusRaises code = true
        · rw [if_pos hc] at hne
          exact absurd rfl hne
        · rw [if_neg hc] at hne
          cases body with
          | none => exact absurd rfl hne
          | some data => exact ⟨code, data, rfl, by simpa using hc⟩

theorem claim4_failures_yield_empty_witness :
    (FlumeAPI.get_headers 0 fixtureU302 fixtureStValid).ok = true ∧
      ∃ code data, fixtureU302.devicesResp = HttpOutcome.response code (some data) ∧
        statusRaises code = false :=
  (claim4_failures_yield_empty 0 fixtureU302 fixtureStValid "A").1 (by
    have h : (FlumeAPI.get_devices 0 fixtureU302 fixtureStValid).result
        = Json.arr [fixtureDevA] := rfl
    rw [h]
    intro he
    injection he with h2
    exact List.noConfusion h2)

/-- C7: authenticating against a token envelope whose access token's middle
segment base64url-decodes to the JSON text with user_id "42" stores the
subject identifier "42", and a subsequent device-listing call targets the
URL path /users/42/devices. -/
theorem claim7_jwt_subject_and_devices_url :
    (FlumeAPI.authenticate 0 fixtureU7 fixtureStClean).2.user_id = some "42" ∧
      (FlumeAPI.get_devices 0 fixtureU7
          (FlumeAPI.authenticate 0 fixtureU7 fixtureStClean).2).url
        = some "https://api.flumewater.com/users/42/devices" :=
  ⟨rfl, rfl⟩

/-- C9: the derived device name is the string "Flume " concatenated with the
device's product field, identically at the device-info site
(`update_devices_cache`) and at the flow-gauge site
(`collect_consumption_data`); in particular product "Bridge" yields exactly
"Flume Bridge" at both sites. -/
theorem claim9_device_name_rule (fs : List (String × Json)) (p : String)
    (hp : jsonLookup fs "product" = some (Json.str p)) :
    updateDeviceName fs = "Flume " ++ p ∧ collectDeviceName fs = "Flume " ++ p ∧
      (p = "Bridge" →
        updateDeviceName fs = "Flume Bridge" ∧ collectDeviceName fs = "Flume Bridge") := by
  have h1 : updateDeviceName fs = "Flume " ++ p := by
    unfold updateDeviceName jsonGetD
    rw [hp]
    rfl
  have h2 : collectDeviceName fs = "Flume " ++ p := by
    unfold collectDeviceName jsonGetD
    rw [hp]
    rfl
  refine ⟨h1, h2, fun hb => ?_⟩
  subst hb
  exact ⟨by rw [h1]; rfl, by rw [h2]; rfl⟩

theorem claim9_device_name_rule_witness :
    updateDeviceName [("product", Json.str "Bridge")] = "Flume Bridge" ∧
      collectDeviceName [("product", Json.str "Bridge")] = "Flume Bridge" :=
  (claim9_device_name_rule [("product", Json.str "Bridge")] "Bridge" rfl).2.2 rfl

/-- C5: a collector cycle over cached devices (fresh cache, authenticated
client) with no write-aborting element — every cached device is a dict and
every fetched flow value is absent or numeric — writes the fetched value for
every device with a truthy id and a present (numeric) flow rate; in
particular a failing fetch for some device k (whose value is then absent)
does not prevent any other device's gauge from being written. -/
theorem claim5_per_device_isolation (now : Int) (u : Upstream) (st : ExporterState)
    (ds : List Json)
    (hcache : st.devices_cache = Json.arr ds)
    (hfresh : cacheStale now st = false)
    (hvalid : tokenInvalid now st.api = false)
    (hobj : ∀ e ∈ ds, e.isObj = true)
    (hsafe : ∀ e ∈ ds,
      (flowVal now u (pyStr (jsonGetD e.fields "id" Json.null)) st.api).isNull = true ∨
        (flowVal now u (pyStr (jsonGetD e.fields "id" Json.null)) st.api).isNum = true)
    (fs : List (String × Json)) (hmem : Json.obj fs ∈ ds)
    (hid : (jsonGetD fs "id" Json.null).truthy = true)
    (v : Rat)
    (hv : flowVal now u (pyStr (jsonGetD fs "id" Json.null)) st.api = Json.num v) :
    (FlumeExporter.collect_consumption_data now u st).flow_reg
      (pyStr (jsonGetD fs "id" Json.null), collectDeviceName fs) = some v := by
  have hupd := update_no now u st hfresh
  have hCst : FlumeExporter.collect_consumption_data now u st = collectLoop now u ds st := by
    rw [collect_def, hupd]
    dsimp only
    rw [hcache]
  rw [hCst, (collectLoop_spec now u ds st).1, hstep_valid now u st.api hvalid,
    flowFold_char, lastW_mem now u st.api v ds hobj hsafe fs hmem hid hv]

theorem claim5_per_device_isolation_witness :
    (FlumeExporter.collect_consumption_data 100 fixtureUFlow fixtureStCollect).flow_reg
      ("B", "Flume Sensor") = some 3 :=
  claim5_per_device_isolation 100 fixtureUFlow fixtureStCollect
    [fixtureDevA, fixtureDevK, fixtureDevB] rfl (by decide) (by decide)
    (by decide) (by decide)
    [("id", Json.str "B"), ("product", Json.str "Sensor")]
    (List.mem_cons_of_mem _ (List.mem_cons_of_mem _ (List.mem_cons_self _ _)))
    (by decide) 3 rfl

/-- C10: during a collector cycle, a cached device whose current-flow-rate
fetch returns absent (for whatever reason: connection error, 4xx/5xx,
unparseable body, missing gpm field) leaves the flume_water_flow_rate series
at that device's label tuples exactly as it was before the cycle (the
previous value is retained, not cleared or zeroed). -/
theorem claim10_absent_flow_preserves_gauge (now : Int) (u : Upstream)
    (st : ExporterState) (s : String)
    (hvalid : tokenInvalid now st.api = false)
    (hnull : flowVal now u s st.api = Json.null) :
    ∀ n : String,
      (FlumeExporter.collect_consumption_data now u st).flow_reg (s, n)
        = st.flow_reg (s, n) := by
  intro n
  have hs : hstep now u st.api = st.api := hstep_valid now u st.api hvalid
  have hups : hstep now u (FlumeExporter.update_devices_cache now u st).api = st.api := by
    rw [update_api_hstep, hs]
  cases hcache : (FlumeExporter.update_devices_cache now u st).devices_cache with
  | arr ds =>
    have hCst : FlumeExporter.collect_consumption_data now u st
        = collectLoop now u ds (FlumeExporter.update_devices_cache now u st) := by
      rw [collect_def]
      dsimp only
      rw [hcache]
    rw [hCst, (collectLoop_spec now u ds _).1, hups, update_flow, flowFold_char,
      lastW_null now u st.api s hnull ds n]
  | null =>
    rw [collect_stuck now u st
      (fun ds hds => by rw [hcache] at hds; exact Json.noConfusion hds), update_flow]
  | bool b =>
    rw [collect_stuck now u st
      (fun ds hds => by rw [hcache] at hds; exact Json.noConfusion hds), update_flow]
  | num q =>
    rw [collect_stuck now u st
      (fun ds hds => by rw [hcache] at hds; exact Json.noConfusion hds), update_flow]
  | str s2 =>
    rw [collect_stuck now u st
      (fun ds hds => by rw [hcache] at hds; exact Json.noConfusion hds), update_flow]
  | obj fs =>
    rw [collect_stuck now u st
      (fun ds hds => by rw [hcache] at hds; exact Json.noConfusion hds), update_flow]

theorem claim10_absent_flow_preserves_gauge_witness :
    (FlumeExporter.collect_consumption_data 100 fixtureUFlow fixtureStPrev).flow_reg
      ("K", "Flume Bridge") = some 7 :=
  (claim10_absent_flow_preserves_gauge 100 fixtureUFlow fixtureStPrev "K"
    (by decide) rfl "Flume Bridge").trans (by decide)

/-- C8: startup validates the four required credential variables.  If any is
missing (unset or empty), the process reports every missing name, performs no
network activity, and returns exit status 1; when all are present, the normal
startup path returns exit status 0. -/
theorem claim8_env_validation (env : String → Option String) :
    ((∃ v, v ∈ required_env_vars ∧ envTruthy (env v) = false) →
        (main_entry env).exitCode = 1 ∧ (main_entry env).attemptedNetwork = false ∧
          ∀ v ∈ required_env_vars, envTruthy (env v) = false →
            v ∈ (main_entry env).reportedMissing) ∧
    ((∀ v ∈ required_env_vars, envTruthy (env v) = true) →
        (main_entry env).exitCode = 0) := by
  unfold main_entry
  constructor
  · rintro ⟨v, hv, hfalse⟩
    have hmem0 : v ∈ required_env_vars.filter (fun x => !envTruthy (env x)) :=
      List.mem_filter.mpr ⟨hv, by rw [hfalse]; rfl⟩
    have hcond : (!(required_env_vars.filter
        (fun x => !envTruthy (env x))).isEmpty) = true := by
      cases hfe : required_env_vars.filter (fun x => !envTruthy (env x)) with
      | nil => rw [hfe] at hmem0; exact absurd hmem0 (by simp)
      | cons a as => rfl
    rw [if_pos hcond]
    exact ⟨rfl, rfl, fun w hw hwf => List.mem_filter.mpr ⟨hw, by rw [hwf]; rfl⟩⟩
  · intro hall
    have h0 : required_env_vars.filter (fun x => !envTruthy (env x)) = [] :=
      List.filter_eq_nil_iff.mpr (fun a ha => by rw [hall a ha]; simp)
    rw [h0]
    rfl

theorem claim8_env_validation_witness :
    ((main_entry fixtureEnvNone).exitCode = 1 ∧
      (main_entry fixtureEnvNone).attemptedNetwork = false ∧
      "FLUME_USERNAME" ∈ (main_entry fixtureEnvNone).reportedMissing) ∧
    (main_entry fixtureEnvAll).exitCode = 0 := by
  have h := claim8_env_validation fixtureEnvNone
  have h1 := h.1 ⟨"FLUME_CLIENT_ID", by decide, rfl⟩
  exact ⟨⟨h1.1, h1.2.1, h1.2.2 "FLUME_USERNAME" (by decide) rfl⟩,
    (claim8_env_validation fixtureEnvAll).2 (by decide)⟩
